import Mathlib

/-!
Verification development for the saudemapper repository, a Liferay
Headless-API data collector (src/liferay_collector.py, src/main.py,
src/config.py).

The Python source is shallowly embedded: every network interaction is
replaced by an explicit environment argument (per-attempt transport
outcomes, per-page envelopes, per-strategy response data), mutation of
the requests.Session and of the stats dictionary becomes explicit state
passing, and log/sleep/file side effects become trace events.  The
embedded definitions follow the control flow of the source functions of
the same name; fields read with dict.get("k", default) are modelled as
Option fields with getD at the use site.
-/

namespace SaudeMapper

/-- JSON-like values, the open-ended record schema returned by the remote
API.  Python None is JVal.null. -/
inductive JVal where
  | null
  | bool (b : Bool)
  | num (n : Int)
  | str (s : String)
  | arr (xs : List JVal)
  | obj (fields : List (String × JVal))

/-- A generic record: an ordered string-keyed mapping, as a Python dict. -/
abbrev Record := List (String × JVal)

/-- Python d.get(k): the value at the first (unique) occurrence of key k. -/
def dict_get {β : Type} (d : List (String × β)) (k : String) : Option β :=
  (d.find? (fun kv => kv.1 == k)).map (fun kv => kv.2)

/-- Python d[k] = v: replace the value at key k in place, or append a new
binding when the key is absent (Python dicts preserve insertion order). -/
def dict_set {β : Type} (d : List (String × β)) (k : String) (v : β) : List (String × β) :=
  if d.any (fun kv => kv.1 == k) then d.map (fun kv => if kv.1 == k then (k, v) else kv)
  else d ++ [(k, v)]

/-- Python str() rendering, used by f-strings, for the scalar cases that
can appear as a folder id.  Containers are rendered by a fixed
placeholder; no claim depends on that case. -/
def pyStr : JVal → String
  | JVal.null => "None"
  | JVal.bool true => "True"
  | JVal.bool false => "False"
  | JVal.num n => toString n
  | JVal.str s => s
  | JVal.arr _ => "<list>"
  | JVal.obj _ => "<dict>"

/-- Python str.encode("ascii") succeeds exactly when every code point is
below 128. -/
def isAscii (s : String) : Bool := s.toList.all (fun c => c.toNat < 128)

/-- The byte sequence of an ASCII string. -/
def strBytes (s : String) : List Nat := s.toList.map Char.toNat

/-- The standard base64 alphabet. -/
def b64Alphabet : String :=
  "ABCDEFGHIJKLMNOPQRSTUVWXYZabcdefghijklmnopqrstuvwxyz0123456789+/"

/-- The base64 digit for a 6-bit value. -/
def b64Char (n : Nat) : Char := b64Alphabet.toList.getD n '?'

/-- base64.b64encode on a byte list: 3-byte groups become 4 digits, with
"=" padding for a 1- or 2-byte tail. -/
def base64Encode : List Nat → String
  | [] => ""
  | [b1] =>
    let n := b1 * 65536
    String.mk [b64Char (n / 262144 % 64), b64Char (n / 4096 % 64)] ++ "=="
  | [b1, b2] =>
    let n := b1 * 65536 + b2 * 256
    String.mk [b64Char (n / 262144 % 64), b64Char (n / 4096 % 64), b64Char (n / 64 % 64)] ++ "="
  | b1 :: b2 :: b3 :: rest =>
    let n := b1 * 65536 + b2 * 256 + b3
    String.mk [b64Char (n / 262144 % 64), b64Char (n / 4096 % 64), b64Char (n / 64 % 64),
      b64Char (n % 64)] ++ base64Encode rest

/-! ## The request executor: make_request (src/liferay_collector.py lines 315-383)

One call to make_request is driven by an environment that gives, for each
attempt index, what the transport does: a parsed 200 response, an
SSLError, an HTTPError with a status code raised by raise_for_status, or
any other exception (network failure or JSON parse failure).  The
function returns the parsed body or none, the number of increments of
stats["errors"], and the trace of requests issued, re-authentication
runs, and time.sleep calls. -/

/-- What the transport plus JSON parsing does on one attempt of
make_request. -/
inductive AttemptOutcome (α : Type) where
  | success (body : α)
  | sslError
  | httpError (status : Nat)
  | otherError

/-- Observable events of one make_request call. -/
inductive MEvent where
  | request (attempt : Nat)
  | reauth (attempt : Nat)
  | sleep (seconds : Nat)
  deriving DecidableEq

/-- Result of one make_request call: parsed body if any, number of
increments of the run error counter, event trace. -/
structure MRes (α : Type) where
  result : Option α
  errors : Nat
  events : List MEvent

/-- Python truthiness of the credential pair: both username and password
must be non-empty (None is modelled as the empty string). -/
def has_credentials (username password : String) : Bool :=
  username != "" && password != ""

/-- The retry loop of make_request, from a given attempt index.  Source:
for attempt in range(max_retries): issue the GET; on success return the
parsed JSON; on SSLError log and return None at once; on HTTPError with
status 403 or 401 run authenticate_comprehensive when this is attempt 0
and credentials are present; for every non-SSL failure sleep 2 ^ attempt
seconds when the condition attempt < max_retries - 1 holds, otherwise
increment stats["errors"] and return None.  The structural fuel argument
counts the attempts the range loop still has, so fuel = max_retries -
attempt at every call reachable from make_request; an exhausted loop
(only possible with max_retries = 0) falls off the range and returns
None without touching the counter, as the source does. -/
def make_request_go {α : Type} (hasCreds : Bool) (env : Nat → AttemptOutcome α)
    (max_retries : Nat) : Nat → Nat → MRes α
  | 0, _ => ⟨none, 0, []⟩
  | fuel + 1, attempt =>
    match env attempt with
    | AttemptOutcome.success b => ⟨some b, 0, [MEvent.request attempt]⟩
    | AttemptOutcome.sslError => ⟨none, 0, [MEvent.request attempt]⟩
    | AttemptOutcome.httpError s =>
      let re : List MEvent :=
        if (s == 403 || s == 401) && attempt == 0 && hasCreds then [MEvent.reauth attempt] else []
      if attempt < max_retries - 1 then
        let r := make_request_go hasCreds env max_retries fuel (attempt + 1)
        ⟨r.result, r.errors, MEvent.request attempt :: re ++ MEvent.sleep (2 ^ attempt) :: r.events⟩
      else
        ⟨none, 1, MEvent.request attempt :: re⟩
    | AttemptOutcome.otherError =>
      if attempt < max_retries - 1 then
        let r := make_request_go hasCreds env max_retries fuel (attempt + 1)
        ⟨r.result, r.errors, MEvent.request attempt :: MEvent.sleep (2 ^ attempt) :: r.events⟩
      else
        ⟨none, 1, [MEvent.request attempt]⟩

/-- make_request with the default budget of the source (max_retries = 3),
starting at attempt 0 with the full fuel. -/
def make_request {α : Type} (hasCreds : Bool) (env : Nat → AttemptOutcome α) : MRes α :=
  make_request_go hasCreds env 3 3 0

/-- Failures that are retried with backoff: HTTP error statuses and
network or parse exceptions, but not SSL errors. -/
def retryable {α : Type} : AttemptOutcome α → Bool
  | AttemptOutcome.httpError _ => true
  | AttemptOutcome.otherError => true
  | _ => false

/-- Recognizer for sleep events. -/
def isSleep : MEvent → Bool
  | MEvent.sleep _ => true
  | _ => false

/-- Recognizer for re-authentication events. -/
def isReauth : MEvent → Bool
  | MEvent.reauth _ => true
  | _ => false

/-! ## The paginated collector: collect_paginated_data (lines 404-446)

The page oracle gives, for each page number, the envelope that the
make_request call for that page produced (none both for a None return and
for a falsy parsed body, which the source treats alike via "if not
data").  Envelope fields are Options because the source reads them with
dict.get and a default. -/

/-- One page envelope as read by collect_paginated_data:
data.get("totalCount", 0), data.get("lastPage", 1), data.get("items", []). -/
structure PageData (α : Type) where
  totalCount? : Option Nat
  lastPage? : Option Nat
  items? : Option (List α)
  deriving DecidableEq

/-- Log events of one collect_paginated_data call: the failed-page report
(source line 418) and the no-records report for totalCount == 0 (line 429). -/
inductive CollectLog where
  | pageFail (page : Nat)
  | emptyWarn
  deriving DecidableEq

/-- Result of one collect_paginated_data call: accumulated items, log
events, and the pages actually requested, in request order. -/
structure CollectOut (α : Type) where
  items : List α
  logs : List CollectLog
  requests : List Nat

/-- The steady-state part of the while loop of collect_paginated_data,
for pages from 2 on, after total_pages was fixed by the first page.  The
fuel argument carries total_pages - page, so fuel = 0 exactly when
page >= total_pages and the loop breaks after extending with this page.
A none fetch logs the failure for this page and breaks. -/
def collect_go {α : Type} (fetch : Nat → Option (PageData α)) : Nat → Nat → CollectOut α
  | 0, page =>
    match fetch page with
    | none => ⟨[], [CollectLog.pageFail page], [page]⟩
    | some d => ⟨d.items?.getD [], [], [page]⟩
  | fuel + 1, page =>
    match fetch page with
    | none => ⟨[], [CollectLog.pageFail page], [page]⟩
    | some d =>
      let r := collect_go fetch fuel (page + 1)
      ⟨d.items?.getD [] ++ r.items, r.logs, page :: r.requests⟩

/-- collect_paginated_data: fetch page 1; a falsy or absent body breaks
with a failure report; on page 1 read totalCount (default 0) and lastPage
(default 1), and break immediately when totalCount == 0, before touching
the items of the page; otherwise extend with the items of each page and
continue while page < total_pages.  The inter-page rate-limit sleep
carries no data and is not recorded. -/
def collect_paginated_data {α : Type} (fetch : Nat → Option (PageData α)) : CollectOut α :=
  match fetch 1 with
  | none => ⟨[], [CollectLog.pageFail 1], [1]⟩
  | some d =>
    let total_count := d.totalCount?.getD 0
    let total_pages := d.lastPage?.getD 1
    if total_count == 0 then ⟨[], [CollectLog.emptyWarn], [1]⟩
    else
      let items := d.items?.getD []
      if total_pages ≤ 1 then ⟨items, [], [1]⟩
      else
        let r := collect_go fetch (total_pages - 2) 2
        ⟨items ++ r.items, r.logs, 1 :: r.requests⟩

/-- collect_paginated_data composed with make_request as in the source:
each requested page costs one make_request call (budget 3), and the run
error counter receives the sum of the increments of those calls. -/
def collect_with_stats {α : Type} (hasCreds : Bool)
    (envs : Nat → Nat → AttemptOutcome (PageData α)) : CollectOut α × Nat :=
  let fetch := fun p => (make_request_go hasCreds (envs p) 3 3 0).result
  let c := collect_paginated_data fetch
  (c, (c.requests.map (fun p => (make_request_go hasCreds (envs p) 3 3 0).errors)).sum)

/-- The item contribution of page p as seen through the fetch oracle: a
failed page contributes nothing. -/
def pageItems {α : Type} (fetch : Nat → Option (PageData α)) (p : Nat) : List α :=
  match fetch p with
  | some d => d.items?.getD []
  | none => []

/-! ## The authenticator: authenticate_comprehensive and the four
strategies (lines 91-279)

Collector state carries the session default-header dictionary (the only
session field the strategies write) and the csrf_token attribute.  Each
strategy gets the remote responses it would observe from an AuthEnv and
returns its success flag and the updated state; exceptions inside a
strategy are caught by the strategy itself in the source, so each is a
total function returning false for every failing path. -/

/-- Mutable collector state touched by authentication: session.headers
and self.csrf_token. -/
structure CState where
  session : List (String × String)
  csrf_token : Option String

/-- Remote responses observed by the four strategies.  basicStatus and
basicParseOk describe the get-current-user probe of try_basic_auth;
webPostOk stands for status 200 with no "error" in the final URL of the
login POST; webUserProbeOk for a parseable 200 from the user probe;
webBodyLacksLoginMarkers for the absence of sign-in and login markers in
the response body; oauthToken is the parsed access_token field, none when
missing or unparseable. -/
structure AuthEnv where
  basicStatus : Nat
  basicParseOk : Bool
  webLoginPageStatus : Nat
  webCsrfFound : Option String
  webPostOk : Bool
  webUserProbeOk : Bool
  webBodyLacksLoginMarkers : Bool
  jsonwsStatus : Nat
  oauthStatus : Nat
  oauthToken : Option String

/-- Success condition of try_basic_auth: the credential string encodes as
ASCII (otherwise str.encode("ascii") raises before the probe) and the
get-current-user probe returns a parseable 200. -/
def basic_auth_ok (username password : String) (env : AuthEnv) : Bool :=
  isAscii (username ++ ":" ++ password) && env.basicStatus == 200 && env.basicParseOk

/-- Success condition of try_web_login: login page loads, the POST ends
on a 200 without an error URL, and either the user probe confirms the
login or the response body lacks login-page markers. -/
def web_login_ok (env : AuthEnv) : Bool :=
  env.webLoginPageStatus == 200 && env.webPostOk
    && (env.webUserProbeOk || env.webBodyLacksLoginMarkers)

/-- Success condition of try_jsonws_login: the authenticate POST returns
status 200. -/
def jsonws_ok (env : AuthEnv) : Bool := env.jsonwsStatus == 200

/-- Success condition of try_oauth2: the token POST returns 200 and the
parsed body holds a truthy (non-empty) access_token. -/
def oauth2_ok (env : AuthEnv) : Bool :=
  env.oauthStatus == 200 && (match env.oauthToken with
    | some t => t != ""
    | none => false)

/-- try_basic_auth (lines 117-141).  When the credential string is ASCII,
the header Authorization: Basic base64(username:password) is installed on
the session BEFORE the probe request, and is kept even when the probe
fails.  The third component is the session header dictionary carried by
the probe request, none when the encode step raised and no probe was
issued. -/
def try_basic_auth (username password : String) (env : AuthEnv) (st : CState) :
    Bool × CState × Option (List (String × String)) :=
  if isAscii (username ++ ":" ++ password) then
    let auth_b64 := base64Encode (strBytes (username ++ ":" ++ password))
    let headers := dict_set st.session "Authorization" ("Basic " ++ auth_b64)
    (basic_auth_ok username password env, ⟨headers, st.csrf_token⟩, some headers)
  else
    (false, st, none)

/-- try_web_login (lines 143-221).  The login POST uses per-request
headers, so session.headers is never written; self.csrf_token is set when
a csrf token was scraped from the login page, even when the login then
fails.  The heuristic token extraction itself is collapsed into the
environment fields. -/
def try_web_login (env : AuthEnv) (st : CState) : Bool × CState :=
  if env.webLoginPageStatus == 200 then
    let st' : CState :=
      match env.webCsrfFound with
      | some t => ⟨st.session, some t⟩
      | none => st
    (web_login_ok env, st')
  else
    (false, st)

/-- try_jsonws_login (lines 223-249): POST credentials, succeed on a 200;
no collector state is written. -/
def try_jsonws_login (env : AuthEnv) (st : CState) : Bool × CState :=
  (jsonws_ok env, st)

/-- try_oauth2 (lines 251-279): POST a password grant; on a 200 with a
truthy access_token install Authorization: Bearer token and succeed,
otherwise leave the session unchanged and fail. -/
def try_oauth2 (env : AuthEnv) (st : CState) : Bool × CState :=
  if env.oauthStatus == 200 then
    match env.oauthToken with
    | some t =>
      if t != "" then
        (true, ⟨dict_set st.session "Authorization" ("Bearer " ++ t), st.csrf_token⟩)
      else (false, st)
    | none => (false, st)
  else (false, st)

/-- Result of authenticate_comprehensive: which strategies ran, in order
(1 = Basic, 2 = web form, 3 = JSON-WS, 4 = OAuth2), which one succeeded,
and whether the everything-failed warning was logged. -/
structure AuthResult where
  attempted : List Nat
  succeeded : Option Nat
  warned : Bool

/-- authenticate_comprehensive (lines 91-115): try Basic, web form,
JSON-WS, OAuth2 in that order, returning at the first success; when all
four fail, log a warning and return normally, proceeding without
authentication. -/
def authenticate_comprehensive (username password : String) (env : AuthEnv) (st : CState) :
    CState × AuthResult :=
  let r1 := try_basic_auth username password env st
  if r1.1 then (r1.2.1, ⟨[1], some 1, false⟩)
  else
    let r2 := try_web_login env r1.2.1
    if r2.1 then (r2.2, ⟨[1, 2], some 2, false⟩)
    else
      let r3 := try_jsonws_login env r2.2
      if r3.1 then (r3.2, ⟨[1, 2, 3], some 3, false⟩)
      else
        let r4 := try_oauth2 env r3.2
        if r4.1 then (r4.2, ⟨[1, 2, 3, 4], some 4, false⟩)
        else (r4.2, ⟨[1, 2, 3, 4], none, true⟩)

/-! ## Documents per folder: collect_documents_from_folders (lines 499-537)

File writes become events keyed by a structured name; the sanitized
folder-name suffix of the per-folder file is filesystem path
construction, excluded from the specified kernel, so the per-folder file
is keyed by the folder id that the source embeds in the name. -/

/-- Output files of the documents collector. -/
inductive FileName where
  | perFolder (folderId : JVal)
  | allDocuments

/-- folder.get("id"), Python None when absent. -/
def folder_id_of (folder : Record) : JVal := (dict_get folder "id").getD JVal.null

/-- folder.get("name", f"Pasta_(folder_id)") with the f-string default. -/
def folder_name_of (folder : Record) : JVal :=
  (dict_get folder "name").getD (JVal.str ("Pasta_" ++ pyStr (folder_id_of folder)))

/-- doc["source_folder"] = dict of id and name of the source folder. -/
def annotate_doc (folder : Record) (doc : Record) : Record :=
  dict_set doc "source_folder"
    (JVal.obj [("id", folder_id_of folder), ("name", folder_name_of folder)])

/-- Result of collect_documents_from_folders: the consolidated list, the
file writes in order, and the final stats["documents"] assignment (none
when the statistic was not written). -/
structure DocsOut where
  all_documents : List Record
  writes : List (FileName × List Record)
  documents_stat : Option Nat

/-- The folder loop of collect_documents_from_folders: for each folder in
order, collect its documents through the paginated collector, annotate
each document with the source folder, extend the consolidated list, and
write the per-folder file exactly when the document list is non-empty. -/
def docs_loop (docsFetch : JVal → Nat → Option (PageData Record)) :
    List Record → List Record × List (FileName × List Record)
  | [] => ([], [])
  | folder :: rest =>
    let documents := (collect_paginated_data (docsFetch (folder_id_of folder))).items
    let annotated := documents.map (annotate_doc folder)
    let r := docs_loop docsFetch rest
    (annotated ++ r.1,
     (if annotated.isEmpty then [] else [(FileName.perFolder (folder_id_of folder), annotated)])
       ++ r.2)

/-- collect_documents_from_folders (lines 499-537): run the folder loop,
then write the consolidated all_documents file and set the documents
statistic only when at least one document was collected. -/
def collect_documents_from_folders (docsFetch : JVal → Nat → Option (PageData Record))
    (folders : List Record) : DocsOut :=
  let r := docs_loop docsFetch folders
  if r.1.isEmpty then ⟨r.1, r.2, none⟩
  else ⟨r.1, r.2 ++ [(FileName.allDocuments, r.1)], some r.1.length⟩

/-- Recognizer for the consolidated-file write. -/
def isAllDocumentsWrite : FileName × List Record → Bool
  | (FileName.allDocuments, _) => true
  | _ => false

/-! ## The run coordinator: run_full_collection (lines 582-618) and
test_api_access (lines 385-402)

Each resource-collection step either completes (its internal errors were
absorbed by make_request) or raises an uncaught exception; the try block
of run_full_collection spans the five collection steps AND the summary
generation, with one except clause that logs and returns False. -/

/-- Behavior of one collection step as seen by the coordinator. -/
inductive StepB where
  | ok
  | raisesExc
  deriving DecidableEq

/-- Environment of one full run: behavior of each collection step, and
the folder list that collect_document_folders returns when it completes. -/
structure RunEnv where
  structured_contents : StepB
  content_folders : StepB
  site_pages : StepB
  document_folders : StepB
  folders_found : List Record
  documents : StepB

/-- Steps of a full run, for the execution trace. -/
inductive StepId where
  | access
  | structured_contents
  | content_folders
  | site_pages
  | document_folders
  | documents
  | summary
  deriving DecidableEq

/-- Result of run_full_collection: the steps reached, the boolean the
method returns, and whether the except clause logged an uncaught error. -/
structure RunOut where
  ran : List StepId
  success : Bool
  caughtError : Bool

/-- test_api_access (lines 385-402): probe the three known endpoints and
succeed as soon as any responds truthily. -/
def test_api_access (probes : List Bool) : Bool := probes.any id

/-- run_full_collection (lines 582-618): abort (returning False) when the
access probe fails; otherwise run the five collectors in fixed order
inside one try block, skipping the documents step when no document folder
was found, then generate the summary; the except clause catches any
uncaught error from inside the try block, logs it, and returns False, so
an uncaught error also skips the summary. -/
def run_full_collection (probes : List Bool) (env : RunEnv) : RunOut :=
  if !(test_api_access probes) then ⟨[StepId.access], false, false⟩
  else
    match env.structured_contents with
    | StepB.raisesExc => ⟨[StepId.access, StepId.structured_contents], false, true⟩
    | StepB.ok =>
      match env.content_folders with
      | StepB.raisesExc =>
        ⟨[StepId.access, StepId.structured_contents, StepId.content_folders], false, true⟩
      | StepB.ok =>
        match env.site_pages with
        | StepB.raisesExc =>
          ⟨[StepId.access, StepId.structured_contents, StepId.content_folders,
            StepId.site_pages], false, true⟩
        | StepB.ok =>
          match env.document_folders with
          | StepB.raisesExc =>
            ⟨[StepId.access, StepId.structured_contents, StepId.content_folders,
              StepId.site_pages, StepId.document_folders], false, true⟩
          | StepB.ok =>
            if env.folders_found.isEmpty then
              ⟨[StepId.access, StepId.structured_contents, StepId.content_folders,
                StepId.site_pages, StepId.document_folders, StepId.summary], true, false⟩
            else
              match env.documents with
              | StepB.raisesExc =>
                ⟨[StepId.access, StepId.structured_contents, StepId.content_folders,
                  StepId.site_pages, StepId.document_folders, StepId.documents], false, true⟩
              | StepB.ok =>
                ⟨[StepId.access, StepId.structured_contents, StepId.content_folders,
                  StepId.site_pages, StepId.document_folders, StepId.documents,
                  StepId.summary], true, false⟩

/-! ## The CLI entry point: main (src/main.py lines 12-199)

Modelled up to the decisions the claims are about: the credential check,
the collect-options check, dry-run, and the exit paths.  argparse
defaulting and printing are excluded collaborators.  A plain return from
main ends the process with exit code 0; sys.exit(1) gives code 1. -/

/-- Parsed CLI arguments relevant to the validation logic; a missing
username or password is the empty string. -/
structure Args where
  username : String
  password : String
  all : Bool
  structured_contents : Bool
  content_folders : Bool
  site_pages : Bool
  document_folders : Bool
  documents : Bool
  dry_run : Bool

/-- How the collection run behaves once started (after the collector was
constructed, which performs network authentication). -/
inductive RunBehavior where
  | completes
  | keyboardInterrupt
  | raisesExc
  deriving DecidableEq

/-- Outcome of the main process: exit code, whether a configuration error
was printed, and whether any network activity happened. -/
structure MainOutcome where
  exitCode : Nat
  configErrorReported : Bool
  networkActivity : Bool

/-- The per-resource enable flags main derives from the arguments:
all five when --all is given, otherwise the individual flags. -/
def collect_options (args : Args) : List Bool :=
  if args.all then [true, true, true, true, true]
  else [args.structured_contents, args.content_folders, args.site_pages,
    args.document_folders, args.documents]

/-- main (src/main.py lines 82-199): missing credentials print an error
and return (exit code 0, no network); no selected collect option prints
an error and returns (exit code 0, no network); dry-run returns before
constructing the collector; otherwise the collector is constructed
(network authentication) and the run proceeds, with sys.exit(1) on
KeyboardInterrupt and on any other uncaught exception. -/
def main (args : Args) (run : RunBehavior) : MainOutcome :=
  if args.username == "" || args.password == "" then ⟨0, true, false⟩
  else if !((collect_options args).any id) then ⟨0, true, false⟩
  else if args.dry_run then ⟨0, false, false⟩
  else
    match run with
    | RunBehavior.completes => ⟨0, false, true⟩
    | RunBehavior.keyboardInterrupt => ⟨1, false, true⟩
    | RunBehavior.raisesExc => ⟨1, false, true⟩

/-! ## Lemmas about the paginated collector -/

/-- Invariant of the steady-state loop of collect_paginated_data: the
requested pages are consecutive and ascending from the start page, the
accumulated items are the concatenation of the page item lists in page
order, every requested page whose fetch failed is reported in the logs,
and the totalCount-zero report never occurs past page 1. -/
theorem collect_go_spec {α : Type} (fetch : Nat → Option (PageData α)) :
    ∀ fuel page,
      (collect_go fetch fuel page).requests
          = List.range' page (collect_go fetch fuel page).requests.length ∧
      (collect_go fetch fuel page).items
          = (collect_go fetch fuel page).requests.flatMap (pageItems fetch) ∧
      (∀ p ∈ (collect_go fetch fuel page).requests, fetch p = none →
        CollectLog.pageFail p ∈ (collect_go fetch fuel page).logs) ∧
      CollectLog.emptyWarn ∉ (collect_go fetch fuel page).logs ∧
      (collect_go fetch fuel page).requests ≠ [] := by
  intro fuel
  induction fuel with
  | zero =>
    intro page
    cases h : fetch page with
    | none => simp [collect_go, h, pageItems]
    | some d => simp [collect_go, h, pageItems]
  | succ n ih =>
    intro page
    cases h : fetch page with
    | none => simp [collect_go, h, pageItems]
    | some d =>
      obtain ⟨hreq, hitems, hfail, hwarn, hne⟩ := ih (page + 1)
      have hunf : collect_go fetch (n + 1) page
          = ⟨d.items?.getD [] ++ (collect_go fetch n (page + 1)).items,
             (collect_go fetch n (page + 1)).logs,
             page :: (collect_go fetch n (page + 1)).requests⟩ := by
        simp [collect_go, h]
      rw [hunf]
      refine ⟨?_, ?_, ?_, by simpa using hwarn, by simp⟩
      · simp only [List.length_cons, List.range'_succ]
        exact congrArg (page :: ·) hreq
      · simp only [List.flatMap_cons]
        rw [hitems]
        simp [pageItems, h]
      · intro p hp hpn
        simp only [List.mem_cons] at hp
        rcases hp with rfl | hp
        · rw [h] at hpn; exact absurd hpn (by simp)
        · exact hfail p hp hpn

/-- Claim C1 (amended): for every page-response sequence, the requested
pages are consecutive ascending from page 1; unless the first page
reports totalCount 0 (in which case the result is empty regardless of the
items of that page), the returned items are exactly the concatenation of
the item lists of the requested pages in page order (within-page order
preserved), and the returned length equals the sum of the observed
per-page item counts; the returned length never exceeds that sum; and
every requested page whose fetch failed is reported in the logs. -/
theorem collect_paginated_data_order_and_count {α : Type}
    (fetch : Nat → Option (PageData α)) :
    (collect_paginated_data fetch).requests
        = List.range' 1 (collect_paginated_data fetch).requests.length ∧
    (CollectLog.emptyWarn ∉ (collect_paginated_data fetch).logs →
      (collect_paginated_data fetch).items
        = (collect_paginated_data fetch).requests.flatMap (pageItems fetch)) ∧
    (CollectLog.emptyWarn ∉ (collect_paginated_data fetch).logs →
      (collect_paginated_data fetch).items.length
        = ((collect_paginated_data fetch).requests.map
            (fun p => (pageItems fetch p).length)).sum) ∧
    (collect_paginated_data fetch).items.length
        ≤ ((collect_paginated_data fetch).requests.map
            (fun p => (pageItems fetch p).length)).sum ∧
    (∀ p ∈ (collect_paginated_data fetch).requests, fetch p = none →
      CollectLog.pageFail p ∈ (collect_paginated_data fetch).logs) := by
  have flat_len : ∀ (l : List Nat),
      (l.flatMap (pageItems fetch)).length
        = (l.map (fun p => (pageItems fetch p).length)).sum := by
    intro l
    rw [List.length_flatMap]
    rfl
  cases h1 : fetch 1 with
  | none =>
    have hunf : collect_paginated_data fetch
        = ⟨[], [CollectLog.pageFail 1], [1]⟩ := by
      simp [collect_paginated_data, h1]
    rw [hunf]
    refine ⟨by simp, ?_, ?_, by simp [pageItems, h1], ?_⟩
    · intro _; simp [pageItems, h1]
    · intro _; simp [pageItems, h1]
    · intro p hp _
      simp only [List.mem_singleton] at hp
      simp [hp]
  | some d =>
    by_cases htc : (d.totalCount?.getD 0 == 0) = true
    · have hunf : collect_paginated_data fetch
          = ⟨[], [CollectLog.emptyWarn], [1]⟩ := by
        simp [collect_paginated_data, h1, htc]
      rw [hunf]
      refine ⟨by simp, ?_, ?_, by simp, ?_⟩
      · intro hw; exact absurd (by simp) hw
      · intro hw; exact absurd (by simp) hw
      · intro p hp hpn
        simp only [List.mem_singleton] at hp
        rw [hp, h1] at hpn; exact absurd hpn (by simp)
    · by_cases htp : d.lastPage?.getD 1 ≤ 1
      · have hunf : collect_paginated_data fetch
            = ⟨d.items?.getD [], [], [1]⟩ := by
          simp [collect_paginated_data, h1, htc, htp]
        rw [hunf]
        refine ⟨by simp, ?_, ?_, ?_, ?_⟩
        · intro _; simp [pageItems, h1]
        · intro _; simp [pageItems, h1]
        · simp [pageItems, h1]
        · intro p hp hpn
          simp only [List.mem_singleton] at hp
          rw [hp, h1] at hpn; exact absurd hpn (by simp)
      · obtain ⟨hreq, hitems, hfail, hwarn, hne⟩ :=
          collect_go_spec fetch (d.lastPage?.getD 1 - 2) 2
        have hunf : collect_paginated_data fetch
            = ⟨d.items?.getD [] ++ (collect_go fetch (d.lastPage?.getD 1 - 2) 2).items,
               (collect_go fetch (d.lastPage?.getD 1 - 2) 2).logs,
               1 :: (collect_go fetch (d.lastPage?.getD 1 - 2) 2).requests⟩ := by
          simp [collect_paginated_data, h1, htc, htp]
        rw [hunf]
        have hflat : d.items?.getD [] ++ (collect_go fetch (d.lastPage?.getD 1 - 2) 2).items
            = (1 :: (collect_go fetch (d.lastPage?.getD 1 - 2) 2).requests).flatMap
                (pageItems fetch) := by
          simp only [List.flatMap_cons]
          rw [hitems]
          simp [pageItems, h1]
        refine ⟨?_, fun _ => hflat, fun _ => ?_, ?_, ?_⟩
        · simp only [List.length_cons, List.range'_succ]
          exact congrArg (1 :: ·) hreq
        · rw [hflat, flat_len]
        · rw [hflat, flat_len]
        · intro p hp hpn
          simp only [List.mem_cons] at hp
          rcases hp with rfl | hp
          · rw [h1] at hpn; exact absurd hpn (by simp)
          · exact hfail p hp hpn

/-- Witness for claim C1 at a concrete two-page backend: page 1 carries
items 10, 11 and page 2 carries items 20, 21, so the collected sequence
is their concatenation in page order and its length is the observed sum. -/
theorem collect_paginated_data_order_and_count_witness :
    (CollectLog.emptyWarn
        ∉ (collect_paginated_data (fun p => if p ≤ 2
            then some (⟨some 4, some 2, some [p * 10, p * 10 + 1]⟩ : PageData Nat)
            else none)).logs) ∧
    (collect_paginated_data (fun p => if p ≤ 2
        then some (⟨some 4, some 2, some [p * 10, p * 10 + 1]⟩ : PageData Nat)
        else none)).items
      = (collect_paginated_data (fun p => if p ≤ 2
          then some (⟨some 4, some 2, some [p * 10, p * 10 + 1]⟩ : PageData Nat)
          else none)).requests.flatMap
          (pageItems (fun p => if p ≤ 2
            then some (⟨some 4, some 2, some [p * 10, p * 10 + 1]⟩ : PageData Nat)
            else none)) := by
  have h := collect_paginated_data_order_and_count
    (fun p => if p ≤ 2
      then some (⟨some 4, some 2, some [p * 10, p * 10 + 1]⟩ : PageData Nat)
      else none)
  exact ⟨by decide, h.2.1 (by decide)⟩

/-- Counterexample to claim C1 as stated: a first page whose envelope
reports totalCount 0 while carrying one item.  No page fetch fails, page
1 is requested and observed with one item, yet the returned sequence is
empty, so the returned length does not equal the sum of the observed
per-page item counts. -/
theorem collect_paginated_data_zero_total_count_drops_items :
    (collect_paginated_data
        (fun _ => some (⟨some 0, some 1, some [0]⟩ : PageData Nat))).requests = [1] ∧
    (fun _ => some (⟨some 0, some 1, some [(0 : Nat)]⟩ : PageData Nat)) 1 ≠ none ∧
    (collect_paginated_data
        (fun _ => some (⟨some 0, some 1, some [0]⟩ : PageData Nat))).logs
      = [CollectLog.emptyWarn] ∧
    (collect_paginated_data
          (fun _ => some (⟨some 0, some 1, some [0]⟩ : PageData Nat))).items.length
      ≠ ((collect_paginated_data
            (fun _ => some (⟨some 0, some 1, some [0]⟩ : PageData Nat))).requests.map
          (fun p => (pageItems
            (fun _ => some (⟨some 0, some 1, some [0]⟩ : PageData Nat)) p).length)).sum := by
  refine ⟨rfl, by simp, rfl, by decide⟩

/-! ## Lemmas about the request executor -/

/-- A make_request call that produced a parsed body did not touch the
error counter. -/
theorem make_request_go_errors_of_some {α : Type} (hasCreds : Bool)
    (env : Nat → AttemptOutcome α) (m : Nat) :
    ∀ fuel attempt b, (make_request_go hasCreds env m fuel attempt).result = some b →
      (make_request_go hasCreds env m fuel attempt).errors = 0 := by
  intro fuel
  induction fuel with
  | zero => intro attempt b hb; simp [make_request_go] at hb
  | succ n ih =>
    intro attempt b hb
    cases henv : env attempt with
    | success c => simp [make_request_go, henv]
    | sslError => simp [make_request_go, henv] at hb
    | httpError s =>
      by_cases h2 : attempt < m - 1
      · simp only [make_request_go, henv, h2, if_true] at hb ⊢
        exact ih (attempt + 1) b hb
      · simp [make_request_go, henv, h2] at hb
    | otherError =>
      by_cases h2 : attempt < m - 1
      · simp only [make_request_go, henv, h2, if_true] at hb ⊢
        exact ih (attempt + 1) b hb
      · simp [make_request_go, henv, h2] at hb

/-- From attempt 1 on, make_request never runs re-authentication: the
reauth branch is guarded by attempt == 0. -/
theorem make_request_go_no_reauth_after_first {α : Type} (hasCreds : Bool)
    (env : Nat → AttemptOutcome α) (m : Nat) :
    ∀ fuel attempt, 1 ≤ attempt →
      (make_request_go hasCreds env m fuel attempt).events.filter isReauth = [] := by
  intro fuel
  induction fuel with
  | zero => intro attempt _; simp [make_request_go]
  | succ n ih =>
    intro attempt ha
    have ha0 : (attempt == 0) = false := beq_eq_false_iff_ne.mpr (by omega)
    cases henv : env attempt with
    | success c => simp [make_request_go, henv, isReauth]
    | sslError => simp [make_request_go, henv, isReauth]
    | httpError s =>
      by_cases h2 : attempt < m - 1
      · simp [make_request_go, henv, h2, ha0, isReauth, ih (attempt + 1) (by omega)]
      · simp [make_request_go, henv, h2, ha0, isReauth]
    | otherError =>
      by_cases h2 : attempt < m - 1
      · simp [make_request_go, henv, h2, isReauth, ih (attempt + 1) (by omega)]
      · simp [make_request_go, henv, h2, isReauth]

/-- When every attempt up to the budget fails with a retryable (non-SSL)
failure, the loop runs to exhaustion: no body, exactly one error-counter
increment, and one backoff sleep of 2 ^ k seconds after each attempt k
except the last. -/
theorem make_request_go_all_fail {α : Type} (hasCreds : Bool)
    (env : Nat → AttemptOutcome α) (m : Nat) :
    ∀ fuel attempt, fuel = m - attempt → attempt < m →
      (∀ j, attempt ≤ j → j < m → retryable (env j) = true) →
      (make_request_go hasCreds env m fuel attempt).result = none ∧
      (make_request_go hasCreds env m fuel attempt).errors = 1 ∧
      (make_request_go hasCreds env m fuel attempt).events.filter isSleep
        = (List.range' attempt (m - 1 - attempt)).map (fun k => MEvent.sleep (2 ^ k)) := by
  intro fuel
  induction fuel with
  | zero => intro attempt hfe hlt _; omega
  | succ n ih =>
    intro attempt hfe hlt hall
    have hr := hall attempt (le_refl attempt) hlt
    cases henv : env attempt with
    | success b => rw [henv] at hr; simp [retryable] at hr
    | sslError => rw [henv] at hr; simp [retryable] at hr
    | httpError s =>
      by_cases h2 : attempt < m - 1
      · obtain ⟨ih1, ih2, ih3⟩ := ih (attempt + 1) (by omega) (by omega)
          (fun j hj1 hj2 => hall j (by omega) hj2)
        have hcnt : m - 1 - attempt = (m - 1 - (attempt + 1)) + 1 := by omega
        cases hco : ((s == 403 || s == 401) && attempt == 0 && hasCreds) with
        | false =>
          simp [make_request_go, henv, h2, hco, isSleep, ih1, ih2, ih3, hcnt,
            List.range'_succ]
        | true =>
          simp [make_request_go, henv, h2, hco, isSleep, ih1, ih2, ih3, hcnt,
            List.range'_succ]
      · have h0 : m - 1 - attempt = 0 := by omega
        cases hco : ((s == 403 || s == 401) && attempt == 0 && hasCreds) with
        | false => simp [make_request_go, henv, h2, hco, isSleep, h0]
        | true => simp [make_request_go, henv, h2, hco, isSleep, h0]
    | otherError =>
      by_cases h2 : attempt < m - 1
      · obtain ⟨ih1, ih2, ih3⟩ := ih (attempt + 1) (by omega) (by omega)
          (fun j hj1 hj2 => hall j (by omega) hj2)
        have hcnt : m - 1 - attempt = (m - 1 - (attempt + 1)) + 1 := by omega
        simp [make_request_go, henv, h2, isSleep, ih1, ih2, ih3, hcnt, List.range'_succ]
      · have h0 : m - 1 - attempt = 0 := by omega
        simp [make_request_go, henv, h2, isSleep, h0]

/-- Claim C6: when every attempt fails with a non-TLS failure (HTTP error
status, network exception, or parse exception), make_request backs off
2 ^ attempt seconds after each attempt except the last (so delays 1s and
2s for attempts 0 and 1 under the default budget 3), and on exhausting
the max_retries attempts it increments the run error counter by exactly 1
and returns no result instead of raising. -/
theorem make_request_backoff_and_exhaustion {α : Type} (hasCreds : Bool)
    (env : Nat → AttemptOutcome α) (m : Nat) (hm : 1 ≤ m)
    (hall : ∀ j, j < m → retryable (env j) = true) :
    (make_request_go hasCreds env m m 0).result = none ∧
    (make_request_go hasCreds env m m 0).errors = 1 ∧
    (make_request_go hasCreds env m m 0).events.filter isSleep
      = (List.range (m - 1)).map (fun k => MEvent.sleep (2 ^ k)) := by
  obtain ⟨h1, h2, h3⟩ := make_request_go_all_fail hasCreds env m m 0 (by omega) (by omega)
    (fun j _ hj2 => hall j hj2)
  refine ⟨h1, h2, ?_⟩
  rw [h3, List.range_eq_range']
  simp

/-- Witness for claim C6: three network failures under the default budget
give no result, one error increment, and the delay schedule 1s, 2s. -/
theorem make_request_backoff_and_exhaustion_witness :
    (make_request_go true (fun _ => (AttemptOutcome.otherError : AttemptOutcome Nat))
        3 3 0).result = none ∧
    (make_request_go true (fun _ => (AttemptOutcome.otherError : AttemptOutcome Nat))
        3 3 0).errors = 1 ∧
    (make_request_go true (fun _ => (AttemptOutcome.otherError : AttemptOutcome Nat))
        3 3 0).events.filter isSleep = [MEvent.sleep 1, MEvent.sleep 2] := by
  have h := make_request_backoff_and_exhaustion true
    (fun _ => (AttemptOutcome.otherError : AttemptOutcome Nat)) 3 (by omega)
    (fun _ _ => rfl)
  exact ⟨h.1, h.2.1, h.2.2.trans (by decide)⟩

/-- Claim C5 (amended): a TLS/certificate error ends the make_request
call at once with no result, no retry attempt and NO error-counter
increment (the source logs the SSL failure and returns None without
touching stats["errors"]), and a resource whose every page fetch dies
this way collects an empty dataset, with the failure of page 1 logged;
the collector returns normally, so the run continues with the following
resources. -/
theorem make_request_ssl_terminal_uncounted {α : Type} (hasCreds : Bool)
    (envs : Nat → Nat → AttemptOutcome (PageData α))
    (hssl : ∀ p, envs p 0 = AttemptOutcome.sslError) :
    (∀ m, 1 ≤ m →
      make_request_go hasCreds (envs 1) m m 0 = ⟨none, 0, [MEvent.request 0]⟩) ∧
    (collect_with_stats hasCreds envs).1.items = [] ∧
    (collect_with_stats hasCreds envs).1.logs = [CollectLog.pageFail 1] ∧
    (collect_with_stats hasCreds envs).2 = 0 := by
  have hgo : ∀ p m, 1 ≤ m →
      make_request_go hasCreds (envs p) m m 0 = ⟨none, 0, [MEvent.request 0]⟩ := by
    intro p m hm
    obtain ⟨n, rfl⟩ : ∃ n, m = n + 1 := ⟨m - 1, by omega⟩
    simp [make_request_go, hssl p]
  refine ⟨hgo 1, ?_, ?_, ?_⟩ <;>
    simp [collect_with_stats, collect_paginated_data, hgo _ 3 (by omega)]

/-- Witness for claim C5 at a concrete transport that raises a
certificate error on every request. -/
theorem make_request_ssl_terminal_uncounted_witness :
    make_request_go true
        ((fun _ _ => AttemptOutcome.sslError) (1 : Nat) : Nat → AttemptOutcome (PageData Nat))
        3 3 0 = ⟨none, 0, [MEvent.request 0]⟩ ∧
    (collect_with_stats true
        (fun _ _ => (AttemptOutcome.sslError : AttemptOutcome (PageData Nat)))).1.items = [] ∧
    (collect_with_stats true
        (fun _ _ => (AttemptOutcome.sslError : AttemptOutcome (PageData Nat)))).2 = 0 := by
  have h := make_request_ssl_terminal_uncounted true
    (fun _ _ => (AttemptOutcome.sslError : AttemptOutcome (PageData Nat)))
    (fun _ => rfl)
  exact ⟨h.1 3 (by omega), h.2.1, h.2.2.2⟩

/-- Counterexample to claim C5 as stated: with a certificate error on the
first attempt, make_request returns no result after a single request, but
the error counter is NOT incremented (the claim demands an increment of
exactly 1). -/
theorem make_request_ssl_error_not_counted :
    (make_request_go true (fun _ => (AttemptOutcome.sslError : AttemptOutcome Nat))
        3 3 0).result = none ∧
    (make_request_go true (fun _ => (AttemptOutcome.sslError : AttemptOutcome Nat))
        3 3 0).events = [MEvent.request 0] ∧
    ¬ (make_request_go true (fun _ => (AttemptOutcome.sslError : AttemptOutcome Nat))
        3 3 0).errors = 1 := by
  refine ⟨rfl, rfl, by decide⟩

/-- Claim C4: with non-empty credentials, a 401 or 403 on attempt 0
triggers exactly one authenticate_comprehensive run, placed between the
failed first request and the backoff sleep that precedes the retry; the
rest of the call behaves exactly as the run starting at attempt 1, and no
attempt after the first ever triggers re-authentication. -/
theorem make_request_reauth_once_on_first_attempt {α : Type}
    (username password : String) (hu : username ≠ "") (hpw : password ≠ "")
    (env : Nat → AttemptOutcome α) (m s : Nat) (hm : 2 ≤ m)
    (hs : s = 401 ∨ s = 403) (h0 : env 0 = AttemptOutcome.httpError s) :
    (make_request_go (has_credentials username password) env m m 0).events
      = MEvent.request 0 :: MEvent.reauth 0 :: MEvent.sleep 1
          :: (make_request_go (has_credentials username password) env m (m - 1) 1).events ∧
    (make_request_go (has_credentials username password) env m m 0).events.filter isReauth
      = [MEvent.reauth 0] ∧
    (make_request_go (has_credentials username password) env m m 0).result
      = (make_request_go (has_credentials username password) env m (m - 1) 1).result ∧
    (make_request_go (has_credentials username password) env m m 0).errors
      = (make_request_go (has_credentials username password) env m (m - 1) 1).errors ∧
    (∀ fuel attempt, 1 ≤ attempt →
      (make_request_go (has_credentials username password) env m fuel attempt).events.filter
          isReauth = []) := by
  have hc : has_credentials username password = true := by
    simp [has_credentials, hu, hpw]
  have hs2 : (s == 403 || s == 401) = true := by
    rcases hs with rfl | rfl <;> decide
  obtain ⟨k, rfl⟩ : ∃ k, m = k + 1 := ⟨m - 1, by omega⟩
  have h2 : 0 < k := by omega
  have hunf : make_request_go (has_credentials username password) env (k + 1) (k + 1) 0
      = ⟨(make_request_go (has_credentials username password) env (k + 1) k 1).result,
         (make_request_go (has_credentials username password) env (k + 1) k 1).errors,
         MEvent.request 0 :: MEvent.reauth 0 :: MEvent.sleep 1
           :: (make_request_go (has_credentials username password) env (k + 1) k 1).events⟩ := by
    simp only [make_request_go]
    simp [h0, hs2, hc, h2]
  simp only [Nat.add_sub_cancel]
  rw [hunf]
  have hno := make_request_go_no_reauth_after_first
    (has_credentials username password) env (k + 1)
  refine ⟨rfl, ?_, rfl, rfl, hno⟩
  simp [List.filter, isReauth, hno k 1 (by omega)]

/-- Witness for claim C4: a 403 on attempt 0 followed by a success, under
the default budget, yields the trace request 0, reauth, sleep 1s,
request 1, and the parsed body of the retry. -/
theorem make_request_reauth_once_on_first_attempt_witness :
    (make_request_go (has_credentials "user" "pass")
        (fun k => if k = 0 then AttemptOutcome.httpError 403
          else AttemptOutcome.success (42 : Nat)) 3 3 0).events
      = [MEvent.request 0, MEvent.reauth 0, MEvent.sleep 1, MEvent.request 1] ∧
    (make_request_go (has_credentials "user" "pass")
        (fun k => if k = 0 then AttemptOutcome.httpError 403
          else AttemptOutcome.success (42 : Nat)) 3 3 0).result = some 42 := by
  have h := make_request_reauth_once_on_first_attempt "user" "pass"
    (by decide) (by decide)
    (fun k => if k = 0 then AttemptOutcome.httpError 403
      else AttemptOutcome.success (42 : Nat)) 3 403 (by omega) (Or.inr rfl) rfl
  exact ⟨h.1.trans (by decide), h.2.2.1.trans (by decide)⟩

/-- Claim C2: when the make_request call for page 1 parses an envelope
whose totalCount is 0, collect_paginated_data returns an empty sequence,
requests no page beyond page 1, and the error counter receives no
increment (a parsed response never increments it). -/
theorem collect_total_count_zero_stops {α : Type} (hasCreds : Bool)
    (envs : Nat → Nat → AttemptOutcome (PageData α)) (d : PageData α)
    (h1 : (make_request_go hasCreds (envs 1) 3 3 0).result = some d)
    (h2 : d.totalCount?.getD 0 = 0) :
    (collect_with_stats hasCreds envs).1.items = [] ∧
    (collect_with_stats hasCreds envs).1.requests = [1] ∧
    (collect_with_stats hasCreds envs).2 = 0 := by
  have herr := make_request_go_errors_of_some hasCreds (envs 1) 3 3 0 d h1
  refine ⟨?_, ?_, ?_⟩ <;>
    simp [collect_with_stats, collect_paginated_data, h1, h2, herr]

/-- Witness for claim C2: a backend whose first page parses with
totalCount 0 yields an empty collection, a single page-1 request, and an
untouched error counter. -/
theorem collect_total_count_zero_stops_witness :
    (collect_with_stats true
        (fun _ _ => AttemptOutcome.success
          (⟨some 0, some 1, some ([] : List Nat)⟩ : PageData Nat))).1.items = [] ∧
    (collect_with_stats true
        (fun _ _ => AttemptOutcome.success
          (⟨some 0, some 1, some ([] : List Nat)⟩ : PageData Nat))).1.requests = [1] ∧
    (collect_with_stats true
        (fun _ _ => AttemptOutcome.success
          (⟨some 0, some 1, some ([] : List Nat)⟩ : PageData Nat))).2 = 0 := by
  exact collect_total_count_zero_stops true
    (fun _ _ => AttemptOutcome.success
      (⟨some 0, some 1, some ([] : List Nat)⟩ : PageData Nat))
    ⟨some 0, some 1, some ([] : List Nat)⟩ rfl rfl

/-! ## Lemmas about the authenticator -/

/-- dict_get after dict_set at the same key returns the stored value, in
both the replace-in-place and the append case. -/
theorem dict_get_set {β : Type} (k : String) (v : β) :
    ∀ d : List (String × β), dict_get (dict_set d k v) k = some v := by
  intro d
  induction d with
  | nil => simp [dict_get, dict_set, List.find?]
  | cons a t ih =>
    by_cases hk : a.1 = k
    · simp [dict_get, dict_set, List.find?, hk]
    · by_cases ht : t.any (fun kv => kv.1 == k) = true
      · have iht := ih
        simp [dict_get, dict_set, List.find?, hk, ht] at iht ⊢
        exact iht
      · have iht := ih
        simp [dict_get, dict_set, List.find?, hk, ht] at iht ⊢
        exact iht

/-- The success flag of try_basic_auth is exactly basic_auth_ok. -/
theorem try_basic_auth_ok_eq (username password : String) (env : AuthEnv) (st : CState) :
    (try_basic_auth username password env st).1 = basic_auth_ok username password env := by
  cases ha : isAscii (username ++ ":" ++ password) <;>
    simp [try_basic_auth, basic_auth_ok, ha]

/-- With ASCII credentials, try_basic_auth leaves the session with the
Basic header installed, whatever the probe outcome was. -/
theorem try_basic_auth_session (username password : String) (env : AuthEnv) (st : CState)
    (ha : isAscii (username ++ ":" ++ password) = true) :
    (try_basic_auth username password env st).2.1.session
      = dict_set st.session "Authorization"
          ("Basic " ++ base64Encode (strBytes (username ++ ":" ++ password))) := by
  simp [try_basic_auth, ha]

/-- The success flag of try_web_login is exactly web_login_ok. -/
theorem try_web_login_ok_eq (env : AuthEnv) (st : CState) :
    (try_web_login env st).1 = web_login_ok env := by
  by_cases h : (env.webLoginPageStatus == 200) = true
  · cases ht : env.webCsrfFound <;> simp [try_web_login, web_login_ok, h, ht]
  · simp [try_web_login, web_login_ok, h]

/-- try_web_login never writes the session header dictionary (the login
POST passes its headers per request). -/
theorem try_web_login_session (env : AuthEnv) (st : CState) :
    (try_web_login env st).2.session = st.session := by
  by_cases h : (env.webLoginPageStatus == 200) = true
  · cases ht : env.webCsrfFound <;> simp [try_web_login, h, ht]
  · simp [try_web_login, h]

/-- The success flag of try_jsonws_login is exactly jsonws_ok. -/
theorem try_jsonws_login_ok_eq (env : AuthEnv) (st : CState) :
    (try_jsonws_login env st).1 = jsonws_ok env := rfl

/-- try_jsonws_login writes no collector state. -/
theorem try_jsonws_login_state (env : AuthEnv) (st : CState) :
    (try_jsonws_login env st).2 = st := rfl

/-- The success flag of try_oauth2 is exactly oauth2_ok. -/
theorem try_oauth2_ok_eq (env : AuthEnv) (st : CState) :
    (try_oauth2 env st).1 = oauth2_ok env := by
  by_cases h : (env.oauthStatus == 200) = true
  · cases ht : env.oauthToken with
    | none => simp [try_oauth2, oauth2_ok, h, ht]
    | some t => cases htt : (t != "") <;> simp [try_oauth2, oauth2_ok, h, ht, htt]
  · simp [try_oauth2, oauth2_ok, h]

/-- A failing try_oauth2 leaves the collector state untouched. -/
theorem try_oauth2_fail_state (env : AuthEnv) (h : oauth2_ok env = false) (st : CState) :
    (try_oauth2 env st).2 = st := by
  by_cases hs : (env.oauthStatus == 200) = true
  · cases ht : env.oauthToken with
    | none => simp [try_oauth2, hs, ht]
    | some t =>
      cases htt : (t != "") with
      | false => simp [try_oauth2, hs, ht, htt]
      | true => rw [oauth2_ok, ht] at h; simp [hs, htt] at h
  · simp [try_oauth2, hs]

/-- Claim C3: authenticate_comprehensive tries Basic Auth, web-form
login, JSON-WS login and OAuth2 in that fixed order and stops at the
first success, so when strategy i succeeds every earlier strategy was
attempted exactly once before it and no later one runs; when all four
fail, the method returns normally having attempted all four, with only
the warning set. -/
theorem authenticate_comprehensive_order (username password : String) (env : AuthEnv)
    (st : CState) :
    (basic_auth_ok username password env = true →
      (authenticate_comprehensive username password env st).2.attempted = [1] ∧
      (authenticate_comprehensive username password env st).2.succeeded = some 1 ∧
      (authenticate_comprehensive username password env st).2.warned = false) ∧
    (basic_auth_ok username password env = false → web_login_ok env = true →
      (authenticate_comprehensive username password env st).2.attempted = [1, 2] ∧
      (authenticate_comprehensive username password env st).2.succeeded = some 2 ∧
      (authenticate_comprehensive username password env st).2.warned = false) ∧
    (basic_auth_ok username password env = false → web_login_ok env = false →
      jsonws_ok env = true →
      (authenticate_comprehensive username password env st).2.attempted = [1, 2, 3] ∧
      (authenticate_comprehensive username password env st).2.succeeded = some 3 ∧
      (authenticate_comprehensive username password env st).2.warned = false) ∧
    (basic_auth_ok username password env = false → web_login_ok env = false →
      jsonws_ok env = false → oauth2_ok env = true →
      (authenticate_comprehensive username password env st).2.attempted = [1, 2, 3, 4] ∧
      (authenticate_comprehensive username password env st).2.succeeded = some 4 ∧
      (authenticate_comprehensive username password env st).2.warned = false) ∧
    (basic_auth_ok username password env = false → web_login_ok env = false →
      jsonws_ok env = false → oauth2_ok env = false →
      (authenticate_comprehensive username password env st).2.attempted = [1, 2, 3, 4] ∧
      (authenticate_comprehensive username password env st).2.succeeded = none ∧
      (authenticate_comprehensive username password env st).2.warned = true) := by
  refine ⟨?_, ?_, ?_, ?_, ?_⟩
  · intro h1
    simp [authenticate_comprehensive, try_basic_auth_ok_eq, h1]
  · intro h1 h2
    simp [authenticate_comprehensive, try_basic_auth_ok_eq, try_web_login_ok_eq, h1, h2]
  · intro h1 h2 h3
    simp [authenticate_comprehensive, try_basic_auth_ok_eq, try_web_login_ok_eq,
      try_jsonws_login_ok_eq, try_jsonws_login_state, h1, h2, h3]
  · intro h1 h2 h3 h4
    simp [authenticate_comprehensive, try_basic_auth_ok_eq, try_web_login_ok_eq,
      try_jsonws_login_ok_eq, try_jsonws_login_state, try_oauth2_ok_eq, h1, h2, h3, h4]
  · intro h1 h2 h3 h4
    simp [authenticate_comprehensive, try_basic_auth_ok_eq, try_web_login_ok_eq,
      try_jsonws_login_ok_eq, try_jsonws_login_state, try_oauth2_ok_eq, h1, h2, h3, h4]

/-- Witness for claim C3: an environment where only the JSON-WS strategy
succeeds makes strategies 1 and 2 run exactly once each, in order, before
strategy 3, and strategy 4 never runs. -/
theorem authenticate_comprehensive_order_witness :
    (authenticate_comprehensive "u" "p"
        ⟨401, false, 200, none, false, false, false, 200, 500, none⟩
        ⟨[], none⟩).2.attempted = [1, 2, 3] ∧
    (authenticate_comprehensive "u" "p"
        ⟨401, false, 200, none, false, false, false, 200, 500, none⟩
        ⟨[], none⟩).2.succeeded = some 3 ∧
    (authenticate_comprehensive "u" "p"
        ⟨401, false, 200, none, false, false, false, 200, 500, none⟩
        ⟨[], none⟩).2.warned = false := by
  have h := authenticate_comprehensive_order "u" "p"
    ⟨401, false, 200, none, false, false, false, 200, 500, none⟩ ⟨[], none⟩
  exact h.2.2.1 (by decide) (by decide) (by decide)

/-- Claim C10 (amended to ASCII-encodable credentials, since a non-ASCII
pair makes the encode step raise before the header is written): whenever
try_basic_auth runs, it installs Authorization: Basic base64(user:pass)
on the session before issuing the probe (the probe carries the updated
header dictionary), the header stays when the probe fails, and after a
full authenticate_comprehensive run whose OAuth2 strategy did not succeed
(in particular when all four strategies failed and the run proceeds
unauthenticated) the session still carries that Basic credential for
every subsequent request. -/
theorem try_basic_auth_header_persists (username password : String) (env : AuthEnv)
    (st : CState) (ha : isAscii (username ++ ":" ++ password) = true) :
    dict_get (try_basic_auth username password env st).2.1.session "Authorization"
      = some ("Basic " ++ base64Encode (strBytes (username ++ ":" ++ password))) ∧
    (try_basic_auth username password env st).2.2
      = some (try_basic_auth username password env st).2.1.session ∧
    ((authenticate_comprehensive username password env st).2.succeeded ≠ some 4 →
      dict_get (authenticate_comprehensive username password env st).1.session "Authorization"
        = some ("Basic " ++ base64Encode (strBytes (username ++ ":" ++ password)))) := by
  refine ⟨?_, ?_, ?_⟩
  · rw [try_basic_auth_session username password env st ha, dict_get_set]
  · simp [try_basic_auth, ha]
  · intro hne
    cases b1 : basic_auth_ok username password env with
    | true =>
      have hs1 : (authenticate_comprehensive username password env st).1
          = (try_basic_auth username password env st).2.1 := by
        simp [authenticate_comprehensive, try_basic_auth_ok_eq, b1]
      rw [hs1, try_basic_auth_session username password env st ha, dict_get_set]
    | false =>
      cases b2 : web_login_ok env with
      | true =>
        have hs1 : (authenticate_comprehensive username password env st).1
            = (try_web_login env (try_basic_auth username password env st).2.1).2 := by
          simp [authenticate_comprehensive, try_basic_auth_ok_eq, try_web_login_ok_eq, b1, b2]
        rw [hs1, try_web_login_session,
          try_basic_auth_session username password env st ha, dict_get_set]
      | false =>
        cases b3 : jsonws_ok env with
        | true =>
          have hs1 : (authenticate_comprehensive username password env st).1
              = (try_web_login env (try_basic_auth username password env st).2.1).2 := by
            simp [authenticate_comprehensive, try_basic_auth_ok_eq, try_web_login_ok_eq,
              try_jsonws_login_ok_eq, try_jsonws_login_state, b1, b2, b3]
          rw [hs1, try_web_login_session,
            try_basic_auth_session username password env st ha, dict_get_set]
        | false =>
          cases b4 : oauth2_ok env with
          | true =>
            exfalso
            apply hne
            simp [authenticate_comprehensive, try_basic_auth_ok_eq, try_web_login_ok_eq,
              try_jsonws_login_ok_eq, try_jsonws_login_state, try_oauth2_ok_eq, b1, b2, b3, b4]
          | false =>
            have hs1 : (authenticate_comprehensive username password env st).1
                = (try_oauth2 env
                    (try_web_login env (try_basic_auth username password env st).2.1).2).2 := by
              simp [authenticate_comprehensive, try_basic_auth_ok_eq, try_web_login_ok_eq,
                try_jsonws_login_ok_eq, try_jsonws_login_state, try_oauth2_ok_eq, b1, b2, b3, b4]
            rw [hs1, try_oauth2_fail_state env b4, try_web_login_session,
              try_basic_auth_session username password env st ha, dict_get_set]

/-- Witness for claim C10: with ASCII credentials u and p and every
strategy failing, the session ends the authentication run still carrying
the Basic header (base64 of u:p is dTpw). -/
theorem try_basic_auth_header_persists_witness :
    dict_get (try_basic_auth "u" "p"
        ⟨401, false, 404, none, false, false, false, 403, 400, none⟩
        ⟨[], none⟩).2.1.session "Authorization" = some "Basic dTpw" ∧
    dict_get (authenticate_comprehensive "u" "p"
        ⟨401, false, 404, none, false, false, false, 403, 400, none⟩
        ⟨[], none⟩).1.session "Authorization" = some "Basic dTpw" := by
  have h := try_basic_auth_header_persists "u" "p"
    ⟨401, false, 404, none, false, false, false, 403, 400, none⟩ ⟨[], none⟩ (by decide)
  exact ⟨h.1.trans (by decide), (h.2.2 (by decide)).trans (by decide)⟩

/-- Counterexample to claim C10 as stated: with the non-ASCII password
character e-acute, str.encode("ascii") raises inside try_basic_auth
before the header assignment, the exception handler swallows it, and no
Authorization header is installed and no probe is issued — so the header
is not installed for EVERY username and password. -/
theorem try_basic_auth_non_ascii_no_header :
    (try_basic_auth "user" "é" ⟨200, true, 200, none, true, true, true, 200, 200, none⟩
        ⟨[], none⟩).2.1.session = [] ∧
    dict_get (try_basic_auth "user" "é"
        ⟨200, true, 200, none, true, true, true, 200, 200, none⟩
        ⟨[], none⟩).2.1.session "Authorization" = none ∧
    (try_basic_auth "user" "é" ⟨200, true, 200, none, true, true, true, 200, 200, none⟩
        ⟨[], none⟩).2.2 = none := by
  exact ⟨rfl, rfl, rfl⟩

/-! ## Lemmas about the documents collector -/

/-- Characterization of the folder loop: the consolidated list is the
concatenation, in folder order, of the annotated documents of each folder, and
the per-folder writes are exactly the folders with a non-empty collected
document list, in order, each carrying its annotated documents. -/
theorem docs_loop_spec (docsFetch : JVal → Nat → Option (PageData Record)) :
    ∀ folders : List Record,
      (docs_loop docsFetch folders).1
        = folders.flatMap (fun f =>
            ((collect_paginated_data (docsFetch (folder_id_of f))).items).map
              (annotate_doc f)) ∧
      (docs_loop docsFetch folders).2
        = (folders.filter (fun f =>
            !((collect_paginated_data (docsFetch (folder_id_of f))).items).isEmpty)).map
            (fun f => (FileName.perFolder (folder_id_of f),
              ((collect_paginated_data (docsFetch (folder_id_of f))).items).map
                (annotate_doc f))) := by
  intro folders
  induction folders with
  | nil => simp [docs_loop]
  | cons f t ih =>
    obtain ⟨ih1, ih2⟩ := ih
    constructor
    · simp [docs_loop, ih1]
    · by_cases he : ((collect_paginated_data (docsFetch (folder_id_of f))).items).isEmpty
        = true
      · have he' : (collect_paginated_data (docsFetch (folder_id_of f))).items = [] :=
          List.isEmpty_iff.mp he
        simp [docs_loop, ih2, he, he']
      · have he' : ((collect_paginated_data (docsFetch (folder_id_of f))).items).isEmpty
            = false := by
          cases hb : ((collect_paginated_data (docsFetch (folder_id_of f))).items).isEmpty
          · rfl
          · exact absurd hb he
        have hm : (((collect_paginated_data (docsFetch (folder_id_of f))).items).map
            (annotate_doc f)).isEmpty = false := by
          cases hi : (collect_paginated_data (docsFetch (folder_id_of f))).items with
          | nil => rw [hi] at he'; simp at he'
          | cons x xs => simp
        simp [docs_loop, ih2, he', hm]

/-- A write list produced only by per-folder writes holds no
consolidated-file write. -/
theorem filter_all_documents_of_map {γ : Type} (l : List γ) (g : γ → JVal)
    (c : γ → List Record) :
    (l.map (fun f => (FileName.perFolder (g f), c f))).filter isAllDocumentsWrite = [] := by
  induction l with
  | nil => simp
  | cons x t ih => simp [isAllDocumentsWrite, ih]

/-- Per-folder writes all survive the non-consolidated filter. -/
theorem filter_not_all_documents_of_map {γ : Type} (l : List γ) (g : γ → JVal)
    (c : γ → List Record) :
    (l.map (fun f => (FileName.perFolder (g f), c f))).filter
        (fun w => !(isAllDocumentsWrite w))
      = l.map (fun f => (FileName.perFolder (g f), c f)) := by
  induction l with
  | nil => simp
  | cons x t ih => simp [isAllDocumentsWrite, ih]

/-- Claim C9 (amended): every collected document is annotated with the id
and name of its source folder; the consolidated list is the concatenation
of the per-folder annotated documents in folder order; a per-folder file
is written exactly for the folders whose collected document list is
non-empty; and the consolidated all_documents file is written exactly
when at least one document was collected, in which case it holds exactly
that concatenation (the source guards the consolidated write with "if
all_documents", so a run with no document writes no consolidated file). -/
theorem collect_documents_from_folders_spec
    (docsFetch : JVal → Nat → Option (PageData Record)) (folders : List Record) :
    (collect_documents_from_folders docsFetch folders).all_documents
      = folders.flatMap (fun f =>
          ((collect_paginated_data (docsFetch (folder_id_of f))).items).map
            (annotate_doc f)) ∧
    (collect_documents_from_folders docsFetch folders).writes.filter
        (fun w => !(isAllDocumentsWrite w))
      = (folders.filter (fun f =>
          !((collect_paginated_data (docsFetch (folder_id_of f))).items).isEmpty)).map
          (fun f => (FileName.perFolder (folder_id_of f),
            ((collect_paginated_data (docsFetch (folder_id_of f))).items).map
              (annotate_doc f))) ∧
    ((collect_documents_from_folders docsFetch folders).all_documents ≠ [] →
      (collect_documents_from_folders docsFetch folders).writes.filter isAllDocumentsWrite
        = [(FileName.allDocuments,
            (collect_documents_from_folders docsFetch folders).all_documents)]) ∧
    ((collect_documents_from_folders docsFetch folders).all_documents = [] →
      (collect_documents_from_folders docsFetch folders).writes.filter isAllDocumentsWrite
        = []) := by
  obtain ⟨h1, h2⟩ := docs_loop_spec docsFetch folders
  by_cases he : (docs_loop docsFetch folders).1.isEmpty = true
  · have hall : (docs_loop docsFetch folders).1 = [] := List.isEmpty_iff.mp he
    have hunf : collect_documents_from_folders docsFetch folders
        = ⟨(docs_loop docsFetch folders).1, (docs_loop docsFetch folders).2, none⟩ := by
      simp [collect_documents_from_folders, he]
    rw [hunf]
    refine ⟨h1, ?_, ?_, ?_⟩
    · rw [h2]
      exact filter_not_all_documents_of_map _ _ _
    · intro hne; exact absurd hall hne
    · intro _
      rw [h2]
      exact filter_all_documents_of_map _ _ _
  · have he' : (docs_loop docsFetch folders).1.isEmpty = false := by
      cases hb : (docs_loop docsFetch folders).1.isEmpty
      · rfl
      · exact absurd hb he
    have hne : (docs_loop docsFetch folders).1 ≠ [] := by
      intro hnil; rw [hnil] at he'; simp at he'
    have hunf : collect_documents_from_folders docsFetch folders
        = ⟨(docs_loop docsFetch folders).1,
           (docs_loop docsFetch folders).2
             ++ [(FileName.allDocuments, (docs_loop docsFetch folders).1)],
           some (docs_loop docsFetch folders).1.length⟩ := by
      simp [collect_documents_from_folders, he']
    rw [hunf]
    refine ⟨h1, ?_, ?_, ?_⟩
    · rw [List.filter_append, h2, filter_not_all_documents_of_map]
      simp [isAllDocumentsWrite]
    · intro _
      rw [List.filter_append, h2, filter_all_documents_of_map]
      simp [isAllDocumentsWrite]
    · intro hnil; exact absurd hnil hne

/-- Witness for claim C9: one folder with one collected document yields a
consolidated list of length 1 and a consolidated-file write holding it. -/
theorem collect_documents_from_folders_spec_witness :
    (collect_documents_from_folders
        (fun _ _ => some ⟨some 1, some 1, some [[("x", JVal.num 7)]]⟩)
        [[("id", JVal.num 1), ("name", JVal.str "A")]]).all_documents.length = 1 ∧
    (collect_documents_from_folders
        (fun _ _ => some ⟨some 1, some 1, some [[("x", JVal.num 7)]]⟩)
        [[("id", JVal.num 1), ("name", JVal.str "A")]]).writes.filter isAllDocumentsWrite
      = [(FileName.allDocuments,
          (collect_documents_from_folders
            (fun _ _ => some ⟨some 1, some 1, some [[("x", JVal.num 7)]]⟩)
            [[("id", JVal.num 1), ("name", JVal.str "A")]]).all_documents)] := by
  have h := collect_documents_from_folders_spec
    (fun _ _ => some ⟨some 1, some 1, some [[("x", JVal.num 7)]]⟩)
    [[("id", JVal.num 1), ("name", JVal.str "A")]]
  have hlen : (collect_documents_from_folders
      (fun _ _ => some ⟨some 1, some 1, some [[("x", JVal.num 7)]]⟩)
      [[("id", JVal.num 1), ("name", JVal.str "A")]]).all_documents.length = 1 := rfl
  refine ⟨hlen, h.2.2.1 ?_⟩
  intro hnil
  rw [hnil] at hlen
  exact absurd hlen (by decide)

/-- Counterexample to claim C9 as stated: a single folder whose documents
endpoint reports totalCount 0 collects nothing, and NO consolidated
all_documents file is written at all (the claim says the consolidated
file always contains the concatenation, which for this input would
require a write with empty content). -/
theorem collect_documents_from_folders_no_empty_consolidated_write :
    (collect_documents_from_folders (fun _ _ => some ⟨some 0, some 1, some []⟩)
        [[("id", JVal.num 1), ("name", JVal.str "A")]]).all_documents = [] ∧
    (collect_documents_from_folders (fun _ _ => some ⟨some 0, some 1, some []⟩)
        [[("id", JVal.num 1), ("name", JVal.str "A")]]).writes = [] ∧
    (collect_documents_from_folders (fun _ _ => some ⟨some 0, some 1, some []⟩)
        [[("id", JVal.num 1), ("name", JVal.str "A")]]).writes.filter isAllDocumentsWrite
      = [] := by
  exact ⟨rfl, rfl, rfl⟩

/-! ## The run coordinator and the CLI -/

/-- Claim C7 (amended): after a passing pre-flight access check, the
summary step runs exactly when no collection step raised: steps that
merely recorded errors through the error counter do not raise, so the
summary is still attempted after them; but an uncaught error is caught at
the coordinator boundary, logged, and makes the run return False WITHOUT
attempting the summary, because the source places generate_summary_report
inside the same try block as the collection steps. -/
theorem run_full_collection_summary (probes : List Bool) (env : RunEnv)
    (hacc : test_api_access probes = true) :
    ((run_full_collection probes env).caughtError = false →
      StepId.summary ∈ (run_full_collection probes env).ran ∧
      (run_full_collection probes env).success = true) ∧
    ((run_full_collection probes env).caughtError = true →
      (run_full_collection probes env).success = false ∧
      StepId.summary ∉ (run_full_collection probes env).ran) := by
  cases e1 : env.structured_contents <;> cases e2 : env.content_folders <;>
    cases e3 : env.site_pages <;> cases e4 : env.document_folders <;>
    cases e5 : env.documents <;>
    by_cases hf : env.folders_found.isEmpty <;>
    simp [run_full_collection, hacc, e1, e2, e3, e4, e5, hf]

/-- Witness for claim C7: a run in which every step completes reaches the
summary step and returns True. -/
theorem run_full_collection_summary_witness :
    StepId.summary ∈ (run_full_collection [true]
        ⟨StepB.ok, StepB.ok, StepB.ok, StepB.ok, [], StepB.ok⟩).ran ∧
    (run_full_collection [true]
        ⟨StepB.ok, StepB.ok, StepB.ok, StepB.ok, [], StepB.ok⟩).success = true := by
  have h := run_full_collection_summary [true]
    ⟨StepB.ok, StepB.ok, StepB.ok, StepB.ok, [], StepB.ok⟩ (by decide)
  exact h.1 rfl

/-- Counterexample to claim C7 as stated: when the first collection step
raises an uncaught error, the coordinator catches it and returns False,
but the summary step is never attempted, contradicting the claim that the
summary is still attempted in the uncaught-error case. -/
theorem run_full_collection_raise_skips_summary :
    (run_full_collection [true]
        ⟨StepB.raisesExc, StepB.ok, StepB.ok, StepB.ok, [], StepB.ok⟩).ran
      = [StepId.access, StepId.structured_contents] ∧
    StepId.summary ∉ (run_full_collection [true]
        ⟨StepB.raisesExc, StepB.ok, StepB.ok, StepB.ok, [], StepB.ok⟩).ran ∧
    (run_full_collection [true]
        ⟨StepB.raisesExc, StepB.ok, StepB.ok, StepB.ok, [], StepB.ok⟩).caughtError = true ∧
    (run_full_collection [true]
        ⟨StepB.raisesExc, StepB.ok, StepB.ok, StepB.ok, [], StepB.ok⟩).success = false ∧
    test_api_access [true] = true := by
  refine ⟨rfl, by decide, rfl, rfl, rfl⟩

/-- Claim C8 (amended): a missing username or password, or no selected
collect option, makes main print the configuration error and return
before any network activity, and the process then exits with code 0 (the
source uses a bare return from main, not sys.exit(1); a nonzero exit
happens only for an uncaught run failure or a user interrupt). -/
theorem main_config_error_before_network (args : Args) (run : RunBehavior)
    (h : args.username = "" ∨ args.password = ""
      ∨ (collect_options args).any id = false) :
    (main args run).configErrorReported = true ∧
    (main args run).networkActivity = false ∧
    (main args run).exitCode = 0 := by
  rcases h with h | h | h
  · simp [main, h]
  · simp [main, h]
  · by_cases hu : args.username = ""
    · simp [main, hu]
    · by_cases hp : args.password = ""
      · simp [main, hp]
      · simp [main, hu, hp, h]

/-- Witness for claim C8: an empty username with a resource selected
reports the configuration error, performs no network activity, and exits
with code 0. -/
theorem main_config_error_before_network_witness :
    (main ⟨"", "pw", true, false, false, false, false, false, false⟩
        RunBehavior.completes).configErrorReported = true ∧
    (main ⟨"", "pw", true, false, false, false, false, false, false⟩
        RunBehavior.completes).networkActivity = false ∧
    (main ⟨"", "pw", true, false, false, false, false, false, false⟩
        RunBehavior.completes).exitCode = 0 := by
  exact main_config_error_before_network
    ⟨"", "pw", true, false, false, false, false, false, false⟩
    RunBehavior.completes (Or.inl rfl)

/-- Counterexample to claim C8 as stated: with a missing username the
configuration error is reported before any network activity, but the
process exit code is 0, not nonzero — main returns instead of calling
sys.exit(1) on this path. -/
theorem main_missing_credentials_exit_zero :
    (main ⟨"", "pw", true, false, false, false, false, false, false⟩
        RunBehavior.completes).configErrorReported = true ∧
    (main ⟨"", "pw", true, false, false, false, false, false, false⟩
        RunBehavior.completes).networkActivity = false ∧
    ¬ ((main ⟨"", "pw", true, false, false, false, false, false, false⟩
        RunBehavior.completes).exitCode ≠ 0) := by
  refine ⟨rfl, rfl, by decide⟩

end SaudeMapper
